import Mathlib

set_option maxRecDepth 100000

/-
Verification of the credential / login-consistency subsystem of the
ai-pos-system repository.

The Python scripts under scrutiny operate on Python `str` values.  We model a
Python string as its list of Unicode code points (`List Nat`): `len` is list
length, equality is list equality, and `str.encode()` is UTF-8 encoding of the
code points.  `hashlib.sha256(...).hexdigest()` is embedded as a complete,
executable SHA-256 (FIPS 180-4) over byte lists, producing the lowercase hex
digest, so that concrete digests evaluate inside the kernel.
-/

namespace AIPos

/-- A Python string, modelled as its list of Unicode code points. -/
abbrev PyStr := List Nat

/-- Convenience conversion from a Lean string literal to a `PyStr`. -/
def pyStr (s : String) : PyStr := s.data.map Char.toNat

/-- UTF-8 encoding of a single code point (`str.encode()` on one character). -/
def utf8Char (c : Nat) : List Nat :=
  if c < 128 then [c]
  else if c < 2048 then [192 + c / 64, 128 + c % 64]
  else if c < 65536 then [224 + c / 4096, 128 + c / 64 % 64, 128 + c % 64]
  else [240 + c / 262144, 128 + c / 4096 % 64, 128 + c / 64 % 64, 128 + c % 64]

/-- UTF-8 encoding of a Python string (`str.encode()`), as a byte list. -/
def utf8Encode (s : PyStr) : List Nat := s.flatMap utf8Char

/-- Truncation to a 32-bit word. -/
def w32 (x : Nat) : Nat := x % 4294967296

/-- Right rotation of a 32-bit word. -/
def rotr (n x : Nat) : Nat := w32 ((x >>> n) ||| (x <<< (32 - n)))

/-- SHA-256 `Ch(x,y,z)`; bitwise complement is xor with `2^32 - 1`. -/
def ch (x y z : Nat) : Nat := (x &&& y) ^^^ ((x ^^^ 4294967295) &&& z)

/-- SHA-256 `Maj(x,y,z)`. -/
def maj (x y z : Nat) : Nat := (x &&& y) ^^^ (x &&& z) ^^^ (y &&& z)

/-- SHA-256 big sigma 0. -/
def bsig0 (x : Nat) : Nat := rotr 2 x ^^^ rotr 13 x ^^^ rotr 22 x

/-- SHA-256 big sigma 1. -/
def bsig1 (x : Nat) : Nat := rotr 6 x ^^^ rotr 11 x ^^^ rotr 25 x

/-- SHA-256 small sigma 0. -/
def ssig0 (x : Nat) : Nat := rotr 7 x ^^^ rotr 18 x ^^^ (x >>> 3)

/-- SHA-256 small sigma 1. -/
def ssig1 (x : Nat) : Nat := rotr 17 x ^^^ rotr 19 x ^^^ (x >>> 10)

/-- The 64 SHA-256 round constants (FIPS 180-4, written in decimal). -/
def sha256K : List Nat :=
  [1116352408, 1899447441, 3049323471, 3921009573, 961987163, 1508970993,
   2453635748, 2870763221, 3624381080, 310598401, 607225278, 1426881987,
   1925078388, 2162078206, 2614888103, 3248222580, 3835390401, 4022224774,
   264347078, 604807628, 770255983, 1249150122, 1555081692, 1996064986,
   2554220882, 2821834349, 2952996808, 3210313671, 3336571891, 3584528711,
   113926993, 338241895, 666307205, 773529912, 1294757372, 1396182291,
   1695183700, 1986661051, 2177026350, 2456956037, 2730485921, 2820302411,
   3259730800, 3345764771, 3516065817, 3600352804, 4094571909, 275423344,
   430227734, 506948616, 659060556, 883997877, 958139571, 1322822218,
   1537002063, 1747873779, 1955562222, 2024104815, 2227730452, 2361852424,
   2428436474, 2756734187, 3204031479, 3329325298]

/-- The eight SHA-256 initial hash values (FIPS 180-4, written in decimal). -/
def sha256H0 : List Nat :=
  [1779033703, 3144134277, 1013904242, 2773480762,
   1359893119, 2600822924, 528734635, 1541459225]

/-- Big-endian byte decomposition, `k` bytes. -/
def beBytes : Nat → Nat → List Nat
  | 0, _ => []
  | k + 1, n => beBytes k (n / 256) ++ [n % 256]

/-- SHA-256 message padding: append `0x80`, zeros, and the 64-bit bit length. -/
def sha256Pad (msg : List Nat) : List Nat :=
  msg ++ 128 :: List.replicate ((119 - msg.length % 64) % 64) 0
      ++ beBytes 8 (msg.length * 8)

/-- Group a byte list into big-endian 32-bit words (fueled recursion). -/
def bytesToWordsAux : Nat → List Nat → List Nat
  | 0, _ => []
  | _, [] => []
  | fuel + 1, l =>
      (l.getD 0 0 * 16777216 + l.getD 1 0 * 65536 + l.getD 2 0 * 256 + l.getD 3 0)
        :: bytesToWordsAux fuel (l.drop 4)

/-- Group a byte list into big-endian 32-bit words. -/
def bytesToWords (l : List Nat) : List Nat := bytesToWordsAux l.length l

/-- One step of the message-schedule extension; the word list is kept with the
most recent word at the head. -/
def scheduleStep (ws : List Nat) : List Nat :=
  w32 (ssig1 (ws.getD 1 0) + ws.getD 6 0 + ssig0 (ws.getD 14 0) + ws.getD 15 0) :: ws

/-- Iterate the message-schedule extension. -/
def scheduleN : Nat → List Nat → List Nat
  | 0, ws => ws
  | n + 1, ws => scheduleN n (scheduleStep ws)

/-- The full 64-word SHA-256 message schedule from the 16 block words. -/
def messageSchedule (w16 : List Nat) : List Nat := (scheduleN 48 w16.reverse).reverse

/-- SHA-256 working variables `a`–`h`. -/
structure Hv where
  a : Nat
  b : Nat
  c : Nat
  d : Nat
  e : Nat
  f : Nat
  g : Nat
  h : Nat

/-- One SHA-256 compression round. -/
def sha256Round (s : Hv) (k w : Nat) : Hv :=
  let t1 := w32 (s.h + bsig1 s.e + ch s.e s.f s.g + k + w)
  let t2 := w32 (bsig0 s.a + maj s.a s.b s.c)
  ⟨w32 (t1 + t2), s.a, s.b, s.c, w32 (s.d + t1), s.e, s.f, s.g⟩

/-- Run the 64 compression rounds over the zipped constants and schedule. -/
def sha256Rounds : List (Nat × Nat) → Hv → Hv
  | [], s => s
  | (k, w) :: rest, s => sha256Rounds rest (sha256Round s k w)

/-- Compress one 64-byte block into the running hash value (8 words). -/
def sha256Compress (hs : List Nat) (block : List Nat) : List Nat :=
  let ws := messageSchedule (bytesToWords block)
  let s0 : Hv := ⟨hs.getD 0 0, hs.getD 1 0, hs.getD 2 0, hs.getD 3 0,
                  hs.getD 4 0, hs.getD 5 0, hs.getD 6 0, hs.getD 7 0⟩
  let s := sha256Rounds (sha256K.zip ws) s0
  [w32 (s0.a + s.a), w32 (s0.b + s.b), w32 (s0.c + s.c), w32 (s0.d + s.d),
   w32 (s0.e + s.e), w32 (s0.f + s.f), w32 (s0.g + s.g), w32 (s0.h + s.h)]

/-- Split the padded message into 64-byte blocks (fueled recursion). -/
def blocksAux : Nat → List Nat → List (List Nat)
  | 0, _ => []
  | _, [] => []
  | fuel + 1, l => l.take 64 :: blocksAux fuel (l.drop 64)

/-- A 32-bit word as four big-endian bytes. -/
def wordBytes (w : Nat) : List Nat :=
  [w >>> 24 % 256, w >>> 16 % 256, w >>> 8 % 256, w % 256]

/-- SHA-256 of a byte list, as the 32-byte digest. -/
def sha256 (msg : List Nat) : List Nat :=
  let padded := sha256Pad msg
  ((blocksAux padded.length padded).foldl sha256Compress sha256H0).flatMap wordBytes

/-- Code point of the lowercase hex character for a nibble. -/
def hexChar (n : Nat) : Nat := if n < 10 then 48 + n else 87 + n

/-- Lowercase hex rendering of a byte list (`bytes.hex()` / `hexdigest`). -/
def hexOfBytes (l : List Nat) : PyStr :=
  l.flatMap (fun b => [hexChar (b / 16), hexChar (b % 16)])

/-- `hash_password` as written identically in the repair/test scripts:
`hashlib.sha256(password.encode()).hexdigest()`. -/
def hash_password (p : PyStr) : PyStr := hexOfBytes (sha256 (utf8Encode p))

example : pyStr "ab" = [97, 98] := by decide

example : hash_password (pyStr "abc") =
    pyStr "ba7816bf8f01cfea414140de5dae2223b00361a396177a9cb410ff61f20015ad" := by decide

example : hash_password (pyStr "") =
    pyStr "e3b0c44298fc1c149afbf4c8996fb92427ae41e4649b934ca495991b7852b855" := by decide

example : hash_password (pyStr "admin123") =
    pyStr "240be518fabd2724ddb6f04eeb1da5967448d7e831c08c8fa822809f74c720a9" := by decide

/-
The identical copies of `hash_password` in the four scripts named by the
claims.  Each Python definition is the single line
`return hashlib.sha256(password.encode()).hexdigest()`.
-/

/-- `hash_password` of src/fix_all_credentials.py (lines 12-14). -/
def hashPasswordFixAll (p : PyStr) : PyStr := hexOfBytes (sha256 (utf8Encode p))

/-- `hash_password` of src/fix_password_hashing.py (lines 12-14). -/
def hashPasswordFixHashing (p : PyStr) : PyStr := hexOfBytes (sha256 (utf8Encode p))

/-- `hash_password` of src/create_firebase_schema.py (lines 14-16). -/
def hashPasswordCreateSchema (p : PyStr) : PyStr := hexOfBytes (sha256 (utf8Encode p))

/-- `hash_password` of src/fix_varun_login.py (lines 26-28). -/
def hashPasswordFixVarun (p : PyStr) : PyStr := hexOfBytes (sha256 (utf8Encode p))

/-- Membership in the lowercase hex alphabet `0-9a-f` (the alphabet of
`hexdigest` output), on code points. -/
def isHexCp (c : Nat) : Bool :=
  decide ((48 ≤ c ∧ c ≤ 57) ∨ (97 ≤ c ∧ c ≤ 102))

/-- Modelled from the spec: the classification predicate of section 4.1,
`Canonical iff len(stored) == L and every character is in the hex alphabet`,
with L = 64, the hexdigest length.  No script contains this predicate as
written; it is the reference point the claims compare the code against. -/
def isCanonicalSpec (v : PyStr) : Bool := v.length == 64 && v.all isHexCp

/-- The plain-text heuristic of src/fix_password_hashing.py line 42 (and 64):
`if current_password and len(current_password) < 64`.  A value is rewritten
exactly when it is nonempty and shorter than 64 characters; there is no
alphabet check. -/
def looksPlainText (v : PyStr) : Bool := !v.isEmpty && decide (v.length < 64)

/-- Python `str.startswith`. -/
def startswith (pre s : PyStr) : Bool := s.take pre.length == pre

/-- The plain-text heuristic of src/fix_login_data_consistency.py line 84:
`if pin and not pin.startswith(\x27hashed_\x27) and len(pin) < 64`. -/
def looksPlainTextFLDC (v : PyStr) : Bool :=
  !v.isEmpty && !(startswith (pyStr "hashed_") v) && decide (v.length < 64)

/-- The credential rewrite of src/fix_password_hashing.py lines 41-47 and
61-69: hash when the heuristic says plain text, otherwise leave the stored
value as it is. -/
def repairPassword (v : PyStr) : PyStr :=
  if looksPlainText v then hash_password v else v

/-- Outcome of the PIN comparison of src/test_login_flow.py lines 72-83. -/
inductive PinCheck
  | hashedMatch
  | plainMatch
  | failed
deriving DecidableEq

/-- The PIN verification of src/test_login_flow.py lines 72-83: compare the
stored value against the hashed input first, then fall back to a direct
plain-text comparison. -/
def verifyPin (stored input : PyStr) : PinCheck :=
  if stored == hash_password input then .hashedMatch
  else if stored == input then .plainMatch
  else .failed

/-- Whether the PIN verification of src/test_login_flow.py accepts the
supplied secret (either comparison path). -/
def accepts (stored input : PyStr) : Bool :=
  match verifyPin stored input with
  | .failed => false
  | _ => true

/-- ASCII lowercasing, the effect of Python `str.lower()` on the ASCII
email strings these scripts handle. -/
def lowerPy (s : PyStr) : PyStr :=
  s.map (fun c => if 65 ≤ c && c ≤ 90 then c + 32 else c)

/-
Embedding of src/test_login_flow.py.  A Firestore document is a partial
field map; each field a script reads is modelled as an `Option`, with the
`get(field, default)` defaults applied exactly where the script applies
them.  Document ids are unique within a collection (a Firestore guarantee).
-/

/-- Restaurant document fields read by src/test_login_flow.py
(snake_case convention: `admin_user_id`, `is_active`). -/
structure FlowRest where
  name : Option PyStr
  email : Option PyStr
  admin_user_id : Option PyStr
  is_active : Option Bool
deriving DecidableEq

/-- User document fields read by src/test_login_flow.py. -/
structure FlowUser where
  name : Option PyStr
  role : Option PyStr
  pin : Option PyStr
deriving DecidableEq

/-- The slice of the document store touched by src/test_login_flow.py:
`restaurants/{id}` and `tenants/{id}/users/{uid}`. -/
structure FlowStore where
  restaurants : List (PyStr × FlowRest)
  tenantUsers : List (PyStr × List (PyStr × FlowUser))
deriving DecidableEq

/-- One entry of the hardcoded `test_credentials` lists. -/
structure Cred where
  email : PyStr
  user_id : PyStr
  password : PyStr
  pin : PyStr
deriving DecidableEq

/-- Read primitive: `db.collection(restaurants).where(email, ==, v).stream()`,
threading the store state. -/
def queryRestaurantsByEmail (e : PyStr) (s : FlowStore) :
    List (PyStr × FlowRest) × FlowStore :=
  (s.restaurants.filter (fun p => p.2.email == some e), s)

/-- Read primitive: `tenants/{rid}/users/{uid}` document get. -/
def getFlowUser (rid uid : PyStr) (s : FlowStore) :
    Option FlowUser × FlowStore :=
  (((s.tenantUsers.lookup rid).getD []).lookup uid, s)

/-- Write primitive of the store interface (document set).  The
login-verification scripts never invoke it; it is the operation the repair
scripts use on their own store slices. -/
def setFlowUser (rid uid : PyStr) (u : FlowUser) (s : FlowStore) :
    Unit × FlowStore :=
  ((), { s with tenantUsers :=
      (s.tenantUsers.filter (fun p => !(p.1 == rid))) ++
        [(rid, ((s.tenantUsers.lookup rid).getD []).filter
            (fun q => !(q.1 == uid)) ++ [(uid, u)])] })

/-- Outcome of one credential test of src/test_login_flow.py lines 49-95. -/
inductive FlowOutcome
  | restaurantNotFound
  | adminUserNotFound (rid : PyStr)
  | checked (pin : PinCheck) (active : Bool)
deriving DecidableEq

/-- One iteration of the credential loop of src/test_login_flow.py lines
49-95: find the restaurant by exact email match and take the first document,
get the admin user document, compare the PIN (hashed first, then plain), and
read `is_active` with default `True`. -/
def testCredentialM (c : Cred) (s : FlowStore) : FlowOutcome × FlowStore :=
  let (rs, s1) := queryRestaurantsByEmail c.email s
  match rs with
  | [] => (.restaurantNotFound, s1)
  | (rid, r) :: _ =>
    let (u, s2) := getFlowUser rid c.user_id s1
    match u with
    | none => (.adminUserNotFound rid, s2)
    | some u =>
      (.checked (verifyPin (u.pin.getD []) c.pin) (r.is_active.getD true), s2)

/-- The outcome component of one credential test. -/
def testCredential (c : Cred) (s : FlowStore) : FlowOutcome :=
  (testCredentialM c s).1

/-- The credential loop of src/test_login_flow.py `main`. -/
def testLoginFlowLoop : List Cred → FlowStore → List FlowOutcome × FlowStore
  | [], s => ([], s)
  | c :: cs, s =>
    let (o, s1) := testCredentialM c s
    let (os, s2) := testLoginFlowLoop cs s1
    (o :: os, s2)

/-- The hardcoded `test_credentials` list of src/test_login_flow.py. -/
def flowTestCreds : List Cred :=
  [⟨pyStr "demo@restaurant.com", pyStr "admin", pyStr "admin123", pyStr "1234"⟩,
   ⟨pyStr "schema@restaurant.com", pyStr "admin", pyStr "admin123", pyStr "1234"⟩,
   ⟨pyStr "test@restaurant.com", pyStr "admin", pyStr "admin123", pyStr "1234"⟩]

/-- `main` of src/test_login_flow.py (the credential-testing part). -/
def testLoginFlowMain (s : FlowStore) : List FlowOutcome × FlowStore :=
  testLoginFlowLoop flowTestCreds s

/-
Embedding of src/test_login_credentials.py (camelCase field convention:
`adminPassword`, `adminUserId`, and a stored `id` field used as tenant id).
-/

/-- Restaurant document fields read by src/test_login_credentials.py. -/
structure TLCRest where
  name : Option PyStr
  email : Option PyStr
  adminPassword : Option PyStr
  adminUserId : Option PyStr
  id : Option PyStr
deriving DecidableEq

/-- User document fields read by src/test_login_credentials.py. -/
structure TLCUser where
  id : Option PyStr
  pin : Option PyStr
deriving DecidableEq

/-- Store slice touched by src/test_login_credentials.py. -/
structure TLCStore where
  restaurants : List (PyStr × TLCRest)
  tenantUsers : List (PyStr × List (PyStr × TLCUser))
deriving DecidableEq

/-- Outcome of one credential test of src/test_login_credentials.py
lines 43-94: the password, user-id and per-user PIN comparisons the script
prints, plus whether a tenant id was present. -/
inductive TLCOutcome
  | notFound
  | report (passwordOk : Bool) (userIdOk : Bool)
      (pinChecks : List (PyStr × Bool)) (hasTenantId : Bool)
deriving DecidableEq

/-- One iteration of the credential loop of src/test_login_credentials.py
lines 43-94.  The restaurant is the first exact email match; the admin
password and user id are compared directly; each tenant user whose `id`
field equals the tested user id has its `pin` compared directly against the
plain input PIN. -/
def tlcCredentialM (c : Cred) (s : TLCStore) : TLCOutcome × TLCStore :=
  match s.restaurants.filter (fun p => p.2.email == some c.email) with
  | [] => (.notFound, s)
  | (_, r) :: _ =>
    let passwordOk := c.password == r.adminPassword.getD []
    let userIdOk := c.user_id == r.adminUserId.getD []
    let tenantId := r.id.getD []
    if tenantId.isEmpty then (.report passwordOk userIdOk [] false, s)
    else
      let users := (s.tenantUsers.lookup tenantId).getD []
      let pinChecks := users.filterMap (fun q =>
        if q.2.id.getD [] == c.user_id
        then some (q.2.id.getD [], c.pin == q.2.pin.getD []) else none)
      (.report passwordOk userIdOk pinChecks true, s)

/-- The credential loop of src/test_login_credentials.py `main`. -/
def tlcLoop : List Cred → TLCStore → List TLCOutcome × TLCStore
  | [], s => ([], s)
  | c :: cs, s =>
    let (o, s1) := tlcCredentialM c s
    let (os, s2) := tlcLoop cs s1
    (o :: os, s2)

/-- The hardcoded `test_credentials` list of src/test_login_credentials.py. -/
def tlcTestCreds : List Cred :=
  [⟨pyStr "demo@restaurant.com", pyStr "admin", pyStr "admin123", pyStr "1234"⟩,
   ⟨pyStr "varun.kan@gmail.com", pyStr "admin", pyStr "admin123", pyStr "1234"⟩]

/-- `main` of src/test_login_credentials.py (the credential-testing part). -/
def tlcMain (s : TLCStore) : List TLCOutcome × TLCStore :=
  tlcLoop tlcTestCreds s

/-
Embedding of src/fix_password_hashing.py: for every restaurant, hash the
stored `adminPassword` when the plain-text heuristic fires, then do the same
for the `pin` of every user under the tenant with the same document id.
The full document is written back in all cases, so an untouched value is
rewritten byte-identically.
-/

/-- Restaurant document fields used by src/fix_password_hashing.py. -/
structure FPHRest where
  name : Option PyStr
  email : Option PyStr
  adminPassword : Option PyStr
deriving DecidableEq

/-- User document fields used by src/fix_password_hashing.py. -/
structure FPHUser where
  id : Option PyStr
  pin : Option PyStr
deriving DecidableEq

/-- Store slice touched by src/fix_password_hashing.py. -/
structure FPHStore where
  restaurants : List (PyStr × FPHRest)
  tenantUsers : List (PyStr × List (PyStr × FPHUser))
deriving DecidableEq

/-- Lines 40-51: rewrite of one restaurant document. -/
def fphFixRest (r : FPHRest) : FPHRest :=
  let cur := r.adminPassword.getD []
  if looksPlainText cur then { r with adminPassword := some (hash_password cur) }
  else r

/-- Lines 58-71: rewrite of one user document. -/
def fphFixUser (u : FPHUser) : FPHUser :=
  let cur := u.pin.getD []
  if looksPlainText cur then { u with pin := some (hash_password cur) }
  else u

/-- `main` of src/fix_password_hashing.py: every restaurant document is
rewritten through `fphFixRest`, and the users of every tenant whose id
matches a restaurant document id are rewritten through `fphFixUser`
(`tenant_id = restaurant_id`, line 54). -/
def fphMain (s : FPHStore) : FPHStore :=
  { restaurants := s.restaurants.map (fun p => (p.1, fphFixRest p.2)),
    tenantUsers := s.tenantUsers.map (fun q =>
      if s.restaurants.any (fun p => p.1 == q.1)
      then (q.1, q.2.map (fun pu => (pu.1, fphFixUser pu.2)))
      else q) }

/-
Embedding of src/fix_all_credentials.py lines 40-71: reset the admin
credential of every restaurant to the plain text `admin123`, and reset the
pins of the users with ids `admin`, `cashier1`, `manager1` to fixed plain
text values; other users are not written back.
-/

/-- Restaurant document fields used by src/fix_all_credentials.py. -/
structure FACRest where
  name : Option PyStr
  email : Option PyStr
  adminPassword : Option PyStr
  adminUserId : Option PyStr
deriving DecidableEq

/-- User document fields used by src/fix_all_credentials.py. -/
structure FACUser where
  id : Option PyStr
  pin : Option PyStr
deriving DecidableEq

/-- Store slice touched by src/fix_all_credentials.py. -/
structure FACStore where
  restaurants : List (PyStr × FACRest)
  tenantUsers : List (PyStr × List (PyStr × FACUser))
deriving DecidableEq

/-- Lines 40-46: unconditional reset of the restaurant admin credentials. -/
def facFixRest (r : FACRest) : FACRest :=
  { r with adminPassword := some (pyStr "admin123"),
           adminUserId := some (pyStr "admin") }

/-- Lines 53-71: reset of the pins of the three known user ids. -/
def facFixUser (u : FACUser) : FACUser :=
  let uid := u.id.getD []
  if uid == pyStr "admin" then { u with pin := some (pyStr "1234") }
  else if uid == pyStr "cashier1" then { u with pin := some (pyStr "1111") }
  else if uid == pyStr "manager1" then { u with pin := some (pyStr "2222") }
  else u

/-- `main` of src/fix_all_credentials.py (lines 31-71). -/
def facMain (s : FACStore) : FACStore :=
  { restaurants := s.restaurants.map (fun p => (p.1, facFixRest p.2)),
    tenantUsers := s.tenantUsers.map (fun q =>
      if s.restaurants.any (fun p => p.1 == q.1)
      then (q.1, q.2.map (fun pu => (pu.1, facFixUser pu.2)))
      else q) }

/-
Embedding of src/verify_restaurant_sync.py `search_restaurant_by_email`
(lines 76-113): query the restaurants collection for an exact match on the
lowercased email with `limit(1)` and return the first document; if none,
repeat on the global_restaurants collection; otherwise return nothing.
-/

/-- Restaurant document fields read by `search_restaurant_by_email`. -/
structure VRSRest where
  name : Option PyStr
  email : Option PyStr
  adminUserId : Option PyStr
deriving DecidableEq

/-- The two top-level collections `search_restaurant_by_email` queries. -/
structure VRSDb where
  restaurants : List (PyStr × VRSRest)
  globals : List (PyStr × VRSRest)
deriving DecidableEq

/-- `collection.where(email, ==, email.lower()).limit(1)`. -/
def vrsQuery (l : List (PyStr × VRSRest)) (e : PyStr) : List (PyStr × VRSRest) :=
  (l.filter (fun p => p.2.email == some e)).take 1

/-- `search_restaurant_by_email` of src/verify_restaurant_sync.py. -/
def search_restaurant_by_email (db : VRSDb) (email : PyStr) :
    Option (PyStr × VRSRest) :=
  match vrsQuery db.restaurants (lowerPy email) with
  | d :: _ => some d
  | [] =>
    match vrsQuery db.globals (lowerPy email) with
    | d :: _ => some d
    | [] => none

/-- Outcome of restaurant resolution in the Login Verifier of the spec. -/
inductive ResolveOutcome
  | resolved (rid : PyStr) (r : VRSRest)
  | notFound
  | ambiguous
deriving DecidableEq

/-- Modelled from the spec: `resolveRestaurant(email)` of section 4.4 —
exact case-insensitive match on Restaurant.email; zero matches is
`Rejected(RestaurantNotFound)`; more than one match must be
`Rejected(AmbiguousRestaurant)` rather than silently picking one.  No script
implements this; it is the behavior claim C4 asserts of the code. -/
def resolveRestaurantSpec (db : VRSDb) (email : PyStr) : ResolveOutcome :=
  match db.restaurants.filter (fun p => p.2.email == some (lowerPy email)) with
  | [] => .notFound
  | [d] => .resolved d.1 d.2
  | _ :: _ :: _ => .ambiguous

/-
Embedding of src/fix_restaurant_credentials.py.  The script walks all
restaurants and, per restaurant, either creates the whole tenant structure
(tenant root, admin user, categories, menu items, in that order) or only the
missing admin user.  Every Firestore write can raise; the model gives the
store a set of document paths whose writes fail, standing for the store
exceptions (network, permission) the claims discuss.  The only exception
handler in the script wraps the entire `main()` call (lines 150-155) and
exits with code 1.  `createdAt`/`lastLogin` timestamp fields and the
category/menu-item payload fields are not modelled: no claim depends on
them, only on which documents get created.
-/

/-- Restaurant document fields read by src/fix_restaurant_credentials.py. -/
structure FRCRest where
  name : Option PyStr
  email : Option PyStr
  adminUserId : Option PyStr
  adminPassword : Option PyStr
deriving DecidableEq

/-- Admin user document created by src/fix_restaurant_credentials.py
(lines 67-76 and 126-135). -/
structure FRCUser where
  id : PyStr
  name : PyStr
  role : PyStr
  pin : PyStr
  isActive : Bool
  adminPanelAccess : Bool
deriving DecidableEq

/-- Store slice touched by src/fix_restaurant_credentials.py, plus the set
of document paths whose writes raise. -/
structure FRCStore where
  restaurants : List (PyStr × FRCRest)
  tenants : List PyStr
  tenantUsers : List (PyStr × List (PyStr × FRCUser))
  tenantCats : List (PyStr × List PyStr)
  tenantItems : List (PyStr × List PyStr)
  failWrites : List PyStr
deriving DecidableEq

/-- Overwrite-or-insert into an association list (a Firestore document set
on a collection keyed by document id). -/
def setAssoc {α : Type} : List (PyStr × α) → PyStr → α → List (PyStr × α)
  | [], k, v => [(k, v)]
  | (a, b) :: l, k, v =>
    if k == a then (k, v) :: l else (a, b) :: setAssoc l k v

/-- Insert a document id into an id list if absent. -/
def addId (l : List PyStr) (x : PyStr) : List PyStr :=
  if l.contains x then l else l ++ [x]

/-- Path of the tenant root document. -/
def frcTenantPath (rid : PyStr) : PyStr := pyStr "tenants/" ++ rid

/-- Path of a tenant user document. -/
def frcUserPath (rid uid : PyStr) : PyStr :=
  pyStr "tenants/" ++ rid ++ pyStr "/users/" ++ uid

/-- Path of a tenant category document. -/
def frcCatPath (rid cid : PyStr) : PyStr :=
  pyStr "tenants/" ++ rid ++ pyStr "/categories/" ++ cid

/-- Path of a tenant menu-item document. -/
def frcItemPath (rid iid : PyStr) : PyStr :=
  pyStr "tenants/" ++ rid ++ pyStr "/menu_items/" ++ iid

/-- Write of the tenant root document (lines 55-60); raises when the path is
marked failing. -/
def frcSetTenant (rid : PyStr) (s : FRCStore) : Except PyStr Unit × FRCStore :=
  if s.failWrites.contains (frcTenantPath rid) then (.error (frcTenantPath rid), s)
  else (.ok (), { s with tenants := addId s.tenants rid })

/-- Write of a tenant user document (lines 78 and 137). -/
def frcSetUser (rid uid : PyStr) (u : FRCUser) (s : FRCStore) :
    Except PyStr Unit × FRCStore :=
  if s.failWrites.contains (frcUserPath rid uid) then (.error (frcUserPath rid uid), s)
  else
    (.ok (),
     { s with tenantUsers := setAssoc s.tenantUsers rid
                               (setAssoc ((s.tenantUsers.lookup rid).getD []) uid u) })

/-- Write of a tenant category document (line 91). -/
def frcSetCat (rid cid : PyStr) (s : FRCStore) : Except PyStr Unit × FRCStore :=
  if s.failWrites.contains (frcCatPath rid cid) then (.error (frcCatPath rid cid), s)
  else
    (.ok (),
     { s with tenantCats := setAssoc s.tenantCats rid
                              (addId ((s.tenantCats.lookup rid).getD []) cid) })

/-- Write of a tenant menu-item document (line 105). -/
def frcSetItem (rid iid : PyStr) (s : FRCStore) : Except PyStr Unit × FRCStore :=
  if s.failWrites.contains (frcItemPath rid iid) then (.error (frcItemPath rid iid), s)
  else
    (.ok (),
     { s with tenantItems := setAssoc s.tenantItems rid
                               (addId ((s.tenantItems.lookup rid).getD []) iid) })

/-- Sequence fallible writes over a list of document ids; the first raised
exception propagates, as in the Python loops. -/
def frcSeq (f : PyStr → FRCStore → Except PyStr Unit × FRCStore) :
    List PyStr → FRCStore → Except PyStr Unit × FRCStore
  | [], s => (.ok (), s)
  | x :: xs, s =>
    match f x s with
    | (.ok _, s1) => frcSeq f xs s1
    | (.error e, s1) => (.error e, s1)

/-- `restaurant_data.get(adminUserId, admin)` (lines 63 and 119). -/
def frcAdminUserId (data : FRCRest) : PyStr := data.adminUserId.getD (pyStr "admin")

/-- `restaurant_data.get(adminPassword, admin123)` (lines 64 and 124). -/
def frcAdminPassword (data : FRCRest) : PyStr :=
  data.adminPassword.getD (pyStr "admin123")

/-- The admin user document the script writes: role `admin`, panel access,
and `pin` set to the hash of whatever admin password is stored (lines 67-76
and 126-135). -/
def mkAdminUser (uid pwd : PyStr) : FRCUser :=
  { id := uid, name := pyStr "Admin", role := pyStr "admin",
    pin := hash_password pwd, isActive := true, adminPanelAccess := true }

/-- Category document ids written for a fresh tenant (lines 88-91). -/
def frcCatIds : List PyStr :=
  [pyStr "cat_1", pyStr "cat_2", pyStr "cat_3", pyStr "cat_4"]

/-- Menu-item document ids written for a fresh tenant (lines 102-105). -/
def frcItemIds : List PyStr :=
  [pyStr "item_1", pyStr "item_2", pyStr "item_3", pyStr "item_4", pyStr "item_5"]

/-- The per-restaurant body of the loop at lines 40-141.  When the tenant
root is missing, create it, then the admin user, then four categories, then
five menu items; when it exists, create only the missing admin user. -/
def processRestaurant (p : PyStr × FRCRest) (s : FRCStore) :
    Except PyStr Unit × FRCStore :=
  let rid := p.1
  let uid := frcAdminUserId p.2
  if s.tenants.contains rid then
    match ((s.tenantUsers.lookup rid).getD []).lookup uid with
    | some _ => (.ok (), s)
    | none => frcSetUser rid uid (mkAdminUser uid (frcAdminPassword p.2)) s
  else
    match frcSetTenant rid s with
    | (.error e, s1) => (.error e, s1)
    | (.ok _, s1) =>
      match frcSetUser rid uid (mkAdminUser uid (frcAdminPassword p.2)) s1 with
      | (.error e, s2) => (.error e, s2)
      | (.ok _, s2) =>
        match frcSeq (fun cid => frcSetCat rid cid) frcCatIds s2 with
        | (.error e, s3) => (.error e, s3)
        | (.ok _, s3) => frcSeq (fun iid => frcSetItem rid iid) frcItemIds s3

/-- The restaurant loop of `main` (lines 40-141): the first exception raised
by any per-restaurant step aborts the remaining restaurants. -/
def frcProcessAll : List (PyStr × FRCRest) → FRCStore →
    Except PyStr Unit × FRCStore
  | [], s => (.ok (), s)
  | p :: ps, s =>
    match processRestaurant p s with
    | (.ok _, s1) => frcProcessAll ps s1
    | (.error e, s1) => (.error e, s1)

/-- `main` of src/fix_restaurant_credentials.py. -/
def frcMain (s : FRCStore) : Except PyStr Unit × FRCStore :=
  frcProcessAll s.restaurants s

/-- The `__main__` block at lines 150-155: run `main()`, catch any
exception, and exit 1 on failure, 0 otherwise. -/
def frcScript (s : FRCStore) : Nat × FRCStore :=
  match frcMain s with
  | (.ok _, s1) => (0, s1)
  | (.error _, s1) => (1, s1)

/-- Whether a fallible run succeeded. -/
def isOkResult (r : Except PyStr Unit × FRCStore) : Bool :=
  match r.1 with
  | .ok _ => true
  | .error _ => false

/-
Concrete documents and stores used to instantiate the claims.
-/

/-- A restaurant document whose admin credential is already the canonical
digest of `admin123`. -/
def fphRestW : FPHRest :=
  { name := some (pyStr "Demo"), email := some (pyStr "demo@restaurant.com"),
    adminPassword := some (hash_password (pyStr "admin123")) }

/-- A user document whose pin is already the canonical digest of `1234`. -/
def fphUserW : FPHUser :=
  { id := some (pyStr "admin"), pin := some (hash_password (pyStr "1234")) }

/-- A store with one restaurant and one admin user, both already canonical. -/
def fphStoreW : FPHStore :=
  { restaurants := [(pyStr "r1", fphRestW)],
    tenantUsers := [(pyStr "r1", [(pyStr "admin", fphUserW)])] }

/-- A restaurant document for src/fix_all_credentials.py whose admin
credential is already the canonical digest of `admin123`. -/
def facRestW : FACRest :=
  { name := some (pyStr "Demo"), email := some (pyStr "demo@restaurant.com"),
    adminPassword := some (hash_password (pyStr "admin123")),
    adminUserId := some (pyStr "admin") }

/-- A store for src/fix_all_credentials.py with one canonical restaurant
and one canonical admin user. -/
def facStoreW : FACStore :=
  { restaurants := [(pyStr "r1", facRestW)],
    tenantUsers := [(pyStr "r1",
      [(pyStr "admin",
        { id := some (pyStr "admin"),
          pin := some (hash_password (pyStr "1234")) })])] }

/-- First of two restaurant documents sharing the email `dup@x.com`. -/
def vrsDup1 : VRSRest :=
  { name := some (pyStr "First"), email := some (pyStr "dup@x.com"),
    adminUserId := some (pyStr "admin") }

/-- Second of two restaurant documents sharing the email `dup@x.com`. -/
def vrsDup2 : VRSRest :=
  { name := some (pyStr "Second"), email := some (pyStr "dup@x.com"),
    adminUserId := some (pyStr "admin") }

/-- A database holding two restaurants with the same email. -/
def vrsDupDb : VRSDb :=
  { restaurants := [(pyStr "a1", vrsDup1), (pyStr "a2", vrsDup2)],
    globals := [] }

/-- Restaurant document for the failing tenant in the batch-abort scenario. -/
def frcRest1 : FRCRest :=
  { name := some (pyStr "Bad"), email := some (pyStr "bad@x.com"),
    adminUserId := some (pyStr "admin"),
    adminPassword := some (pyStr "admin123") }

/-- Restaurant document for the healthy tenant behind it in the batch. -/
def frcRest2 : FRCRest :=
  { name := some (pyStr "Good"), email := some (pyStr "good@x.com"),
    adminUserId := some (pyStr "admin"),
    adminPassword := some (pyStr "admin123") }

/-- A store with two tenant-less restaurants where the write of the first
tenant root raises a store exception. -/
def c6Store : FRCStore :=
  { restaurants := [(pyStr "r1", frcRest1), (pyStr "r2", frcRest2)],
    tenants := [], tenantUsers := [], tenantCats := [], tenantItems := [],
    failWrites := [frcTenantPath (pyStr "r1")] }

/-- The same store restricted to the second restaurant alone. -/
def c6Store2 : FRCStore :=
  { restaurants := [(pyStr "r2", frcRest2)],
    tenants := [], tenantUsers := [], tenantCats := [], tenantItems := [],
    failWrites := [frcTenantPath (pyStr "r1")] }

/-- A restaurant whose stored admin credential is already the canonical
digest of `admin123`. -/
def c7Rest : FRCRest :=
  { name := some (pyStr "Canon"), email := some (pyStr "canon@x.com"),
    adminUserId := some (pyStr "admin"),
    adminPassword := some (hash_password (pyStr "admin123")) }

/-- A store where the tenant root of `c7Rest` exists but its admin user is
missing, and no write fails. -/
def c7Store : FRCStore :=
  { restaurants := [(pyStr "r1", c7Rest)],
    tenants := [pyStr "r1"], tenantUsers := [], tenantCats := [],
    tenantItems := [], failWrites := [] }

/-- An inactive restaurant document (`is_active == False`). -/
def flowInactiveRest : FlowRest :=
  { name := some (pyStr "Demo"), email := some (pyStr "demo@restaurant.com"),
    admin_user_id := some (pyStr "admin"), is_active := some false }

/-- A store holding the inactive restaurant and an admin user whose stored
pin is the canonical digest of `1234`. -/
def flowInactiveStore : FlowStore :=
  { restaurants := [(pyStr "r1", flowInactiveRest)],
    tenantUsers := [(pyStr "r1",
      [(pyStr "admin",
        { name := some (pyStr "Admin"), role := some (pyStr "admin"),
          pin := some (hash_password (pyStr "1234")) })])] }

/-- The correct credential for the inactive restaurant. -/
def c8Cred : Cred :=
  ⟨pyStr "demo@restaurant.com", pyStr "admin", pyStr "admin123", pyStr "1234"⟩

deriving instance DecidableEq for Except

/-
Helper lemmas: shape of the digest, behavior of the comparison paths, and
association-list bookkeeping.
-/

/-- The compression function always returns eight words. -/
theorem sha256Compress_length (hs block : List Nat) :
    (sha256Compress hs block).length = 8 := rfl

/-- Folding the compression function over any block list keeps eight words. -/
theorem foldl_sha256Compress_length (bs : List (List Nat)) :
    ∀ hs : List Nat, hs.length = 8 → (bs.foldl sha256Compress hs).length = 8 := by
  induction bs with
  | nil => intro hs h; simpa using h
  | cons b bs ih => intro hs _; exact ih _ (sha256Compress_length hs b)

/-- Serializing words to bytes quadruples the length. -/
theorem length_flatMap_wordBytes (l : List Nat) :
    (List.flatMap l wordBytes).length = 4 * l.length := by
  induction l with
  | nil => rfl
  | cons w l ih =>
    rw [List.flatMap_cons, List.length_append, ih]
    simp [wordBytes]
    omega

/-- A SHA-256 digest is 32 bytes long. -/
theorem sha256_length (m : List Nat) : (sha256 m).length = 32 := by
  have h8 := foldl_sha256Compress_length
      (blocksAux (sha256Pad m).length (sha256Pad m)) sha256H0 rfl
  show (List.flatMap
      (List.foldl sha256Compress sha256H0
        (blocksAux (sha256Pad m).length (sha256Pad m))) wordBytes).length = 32
  rw [length_flatMap_wordBytes, h8]

/-- Every byte of a SHA-256 digest is below 256. -/
theorem sha256_byte_lt (m : List Nat) (b : Nat) (hb : b ∈ sha256 m) : b < 256 := by
  unfold sha256 at hb
  rw [List.mem_flatMap] at hb
  obtain ⟨w, _, hw⟩ := hb
  simp [wordBytes] at hw
  rcases hw with h | h | h | h <;> omega

/-- Hex rendering doubles the length. -/
theorem hexOfBytes_length (l : List Nat) : (hexOfBytes l).length = 2 * l.length := by
  induction l with
  | nil => rfl
  | cons b l ih =>
    unfold hexOfBytes at ih ⊢
    rw [List.flatMap_cons, List.length_append, ih]
    simp only [List.length_cons, List.length_nil]
    omega

/-- The canonical digest string is 64 characters long. -/
theorem hash_password_length (p : PyStr) : (hash_password p).length = 64 := by
  unfold hash_password
  rw [hexOfBytes_length, sha256_length]

/-- A nibble renders to a character of the lowercase hex alphabet. -/
theorem isHexCp_hexChar (n : Nat) (h : n < 16) : isHexCp (hexChar n) = true := by
  unfold isHexCp hexChar
  split <;> (rw [decide_eq_true_iff]; omega)

/-- Every character of a canonical digest string is in the hex alphabet. -/
theorem hash_password_all_hex (p : PyStr) :
    (hash_password p).all isHexCp = true := by
  rw [List.all_eq_true]
  intro c hc
  unfold hash_password hexOfBytes at hc
  rw [List.mem_flatMap] at hc
  obtain ⟨b, hb, hcb⟩ := hc
  have hblt : b < 256 := sha256_byte_lt _ b hb
  simp at hcb
  rcases hcb with h | h <;> subst h <;> exact isHexCp_hexChar _ (by omega)

/-- The output of `hash_password` always satisfies the canonical-shape
predicate of the spec. -/
theorem isCanonicalSpec_hash (p : PyStr) :
    isCanonicalSpec (hash_password p) = true := by
  simp [isCanonicalSpec, hash_password_length, hash_password_all_hex]

/-- The PIN verification of src/test_login_flow.py accepts exactly when one
of its two comparisons succeeds. -/
theorem accepts_eq (stored input : PyStr) :
    accepts stored input = (stored == hash_password input || stored == input) := by
  unfold accepts verifyPin
  cases h1 : stored == hash_password input
  · cases h2 : stored == input <;> simp [h1, h2]
  · simp [h1]

/-- A value stored as `hash_password` of the secret is always accepted. -/
theorem accepts_hash_self (s : PyStr) : accepts (hash_password s) s = true := by
  rw [accepts_eq]
  simp

/-- A spec-canonical value never fires the plain-text heuristic of
src/fix_password_hashing.py. -/
theorem looksPlainText_of_canonical (v : PyStr) (h : isCanonicalSpec v = true) :
    looksPlainText v = false := by
  have hl : v.length = 64 := by
    unfold isCanonicalSpec at h
    exact eq_of_beq (Bool.and_eq_true .. |>.mp h).1
  simp [looksPlainText, hl]

/-- src/fix_password_hashing.py leaves a spec-canonical restaurant document
unchanged. -/
theorem fphFixRest_canonical (r : FPHRest)
    (h : isCanonicalSpec (r.adminPassword.getD []) = true) : fphFixRest r = r := by
  unfold fphFixRest
  simp [looksPlainText_of_canonical _ h]

/-- src/fix_password_hashing.py leaves a spec-canonical user document
unchanged. -/
theorem fphFixUser_canonical (u : FPHUser)
    (h : isCanonicalSpec (u.pin.getD []) = true) : fphFixUser u = u := by
  unfold fphFixUser
  simp [looksPlainText_of_canonical _ h]

/-- Looking up the key just set returns the value just written. -/
theorem lookup_setAssoc_self {α : Type} (l : List (PyStr × α)) (k : PyStr) (v : α) :
    (setAssoc l k v).lookup k = some v := by
  induction l with
  | nil => simp [setAssoc, List.lookup]
  | cons p l ih =>
    obtain ⟨a, b⟩ := p
    cases h : k == a
    · simp [setAssoc, h, List.lookup, ih]
    · simp [setAssoc, h, List.lookup]

/-- A key that does not resolve has no entries. -/
theorem countP_eq_zero_of_lookup_none {α : Type} (l : List (PyStr × α)) (k : PyStr)
    (h : l.lookup k = none) : l.countP (fun q => k == q.1) = 0 := by
  induction l with
  | nil => rfl
  | cons p l ih =>
    obtain ⟨a, b⟩ := p
    cases hk : k == a
    · simp only [List.lookup, hk] at h
      rw [List.countP_cons_of_neg _ _ (by simp [hk])]
      exact ih h
    · simp only [List.lookup, hk] at h
      exact Option.noConfusion h

/-- Setting a previously absent key yields exactly one entry for it. -/
theorem countP_setAssoc_one {α : Type} (l : List (PyStr × α)) (k : PyStr) (v : α)
    (h : l.lookup k = none) :
    (setAssoc l k v).countP (fun q => k == q.1) = 1 := by
  induction l with
  | nil => simp [setAssoc, List.countP_cons]
  | cons p l ih =>
    obtain ⟨a, b⟩ := p
    cases hk : k == a
    · simp only [List.lookup, hk] at h
      simp only [setAssoc, hk, Bool.false_eq_true, if_false]
      rw [List.countP_cons_of_neg _ _ (by simp [hk])]
      exact ih h
    · simp only [List.lookup, hk] at h
      exact Option.noConfusion h

/-- One credential test of src/test_login_flow.py leaves the store
untouched. -/
theorem testCredentialM_snd (c : Cred) (s : FlowStore) :
    (testCredentialM c s).2 = s := by
  unfold testCredentialM queryRestaurantsByEmail getFlowUser
  repeat' split
  all_goals simp_all

/-- The credential loop of src/test_login_flow.py leaves the store
untouched. -/
theorem testLoginFlowLoop_snd (cs : List Cred) (s : FlowStore) :
    (testLoginFlowLoop cs s).2 = s := by
  induction cs generalizing s with
  | nil => rfl
  | cons c cs ih =>
    unfold testLoginFlowLoop
    rcases hx : testCredentialM c s with ⟨o, s1⟩
    have hs1 : s1 = s := by
      have h1 := testCredentialM_snd c s
      rw [hx] at h1
      exact h1
    rcases hy : testLoginFlowLoop cs s1 with ⟨os, s2⟩
    have hs2 : s2 = s1 := by
      have h2 := ih s1
      rw [hy] at h2
      exact h2
    simp only [hx, hy]
    rw [hs2, hs1]

/-- One credential test of src/test_login_credentials.py leaves the store
untouched. -/
theorem tlcCredentialM_snd (c : Cred) (s : TLCStore) :
    (tlcCredentialM c s).2 = s := by
  unfold tlcCredentialM
  repeat' split
  all_goals (try simp_all)
  all_goals (split <;> rfl)

/-- The credential loop of src/test_login_credentials.py leaves the store
untouched. -/
theorem tlcLoop_snd (cs : List Cred) (s : TLCStore) :
    (tlcLoop cs s).2 = s := by
  induction cs generalizing s with
  | nil => rfl
  | cons c cs ih =>
    unfold tlcLoop
    rcases hx : tlcCredentialM c s with ⟨o, s1⟩
    have hs1 : s1 = s := by
      have h1 := tlcCredentialM_snd c s
      rw [hx] at h1
      exact h1
    rcases hy : tlcLoop cs s1 with ⟨os, s2⟩
    have hs2 : s2 = s1 := by
      have h2 := ih s1
      rw [hy] at h2
      exact h2
    simp only [hx, hy]
    rw [hs2, hs1]

/-- One run of src/fix_password_hashing.py keeps a restaurant document whose
admin credential is spec-canonical exactly as it is. -/
theorem fphMain_restaurants_mem (s : FPHStore) (rid : PyStr) (r : FPHRest)
    (hmem : (rid, r) ∈ s.restaurants)
    (hcan : isCanonicalSpec (r.adminPassword.getD []) = true) :
    (rid, r) ∈ (fphMain s).restaurants := by
  have h2 := List.mem_map_of_mem
    (fun p : PyStr × FPHRest => (p.1, fphFixRest p.2)) hmem
  rw [show (fun p : PyStr × FPHRest => (p.1, fphFixRest p.2)) (rid, r)
      = (rid, fphFixRest r) from rfl] at h2
  rw [fphFixRest_canonical r hcan] at h2
  exact h2

/-- One run of src/fix_password_hashing.py keeps every user document with a
spec-canonical pin inside its tenant entry. -/
theorem fphMain_users_mem (s : FPHStore) (tid : PyStr)
    (us : List (PyStr × FPHUser)) (hmem : (tid, us) ∈ s.tenantUsers) :
    ∃ us2, (tid, us2) ∈ (fphMain s).tenantUsers ∧
      ∀ uid u, (uid, u) ∈ us → isCanonicalSpec (u.pin.getD []) = true →
        (uid, u) ∈ us2 := by
  cases hc : s.restaurants.any (fun p => p.1 == tid) with
  | true =>
    refine ⟨us.map (fun pu => (pu.1, fphFixUser pu.2)), ?_, ?_⟩
    · have h2 := List.mem_map_of_mem
        (fun q : PyStr × List (PyStr × FPHUser) =>
          if s.restaurants.any (fun p => p.1 == q.1)
          then (q.1, q.2.map (fun pu => (pu.1, fphFixUser pu.2)))
          else q) hmem
      simpa [fphMain, hc] using h2
    · intro uid u hu hcanu
      have h3 := List.mem_map_of_mem
        (fun pu : PyStr × FPHUser => (pu.1, fphFixUser pu.2)) hu
      rw [show (fun pu : PyStr × FPHUser => (pu.1, fphFixUser pu.2)) (uid, u)
          = (uid, fphFixUser u) from rfl] at h3
      rw [fphFixUser_canonical u hcanu] at h3
      exact h3
  | false =>
    refine ⟨us, ?_, fun uid u hu _ => hu⟩
    have h2 := List.mem_map_of_mem
      (fun q : PyStr × List (PyStr × FPHUser) =>
        if s.restaurants.any (fun p => p.1 == q.1)
        then (q.1, q.2.map (fun pu => (pu.1, fphFixUser pu.2)))
        else q) hmem
    simpa [fphMain, hc] using h2

/-
Claim theorems.
-/

/-- C1 (corrected): the PIN verification of src/test_login_flow.py does not
dispatch on the classification of the stored value.  On a Canonical stored
value it accepts when `encode(secret) == stored` OR when `secret == stored`
(the plain-text fallback also applies); only on a Legacy stored value does
acceptance coincide with the direct comparison `secret == stored`. -/
theorem c1_verify_both_paths (stored input : PyStr) :
    accepts stored input =
      if isCanonicalSpec stored = true
      then (stored == hash_password input || stored == input)
      else stored == input := by
  rw [accepts_eq]
  by_cases hc : isCanonicalSpec stored = true
  · simp [hc]
  · simp only [hc, if_false]
    cases h1 : stored == hash_password input
    · simp
    · exact absurd (by rw [eq_of_beq h1]; exact isCanonicalSpec_hash input) hc

/-- C1 counterexample: a stored value of sixty-four `0` characters is
Canonical by the classification, the secret equal to the stored bytes is
not its preimage under encode, yet the verifier accepts it through the
plain-text comparison path — contradicting `it never accepts a secret by
any other comparison path`. -/
theorem c1_counterexample :
    isCanonicalSpec (List.replicate 64 48) = true ∧
    hash_password (List.replicate 64 48) ≠ List.replicate 64 48 ∧
    accepts (List.replicate 64 48) (List.replicate 64 48) = true := by decide

/-- C2 (corrected): the classification implemented by the repair scripts is
purely a length test.  src/fix_password_hashing.py treats a stored value as
Legacy (plain text to rewrite) exactly when it is nonempty and shorter than
64 characters, and src/fix_login_data_consistency.py additionally exempts
values starting with `hashed_`; no hex-alphabet test is performed, so
strings of length 64 or more are classified Canonical whatever their
characters. -/
theorem c2_length_only_heuristic (v : PyStr) :
    (looksPlainText v = false ↔ (v = [] ∨ 64 ≤ v.length)) ∧
    (looksPlainTextFLDC v = false ↔
      (v = [] ∨ startswith (pyStr "hashed_") v = true ∨ 64 ≤ v.length)) := by
  constructor
  · simp only [looksPlainText, Bool.and_eq_false_iff, Bool.not_eq_false',
      List.isEmpty_iff, decide_eq_false_iff_not, Nat.not_lt]
  · simp only [looksPlainTextFLDC, Bool.and_eq_false_iff, Bool.not_eq_false',
      List.isEmpty_iff, decide_eq_false_iff_not, Nat.not_lt, Bool.not_eq_false]
    constructor
    · rintro ((h | h) | h)
      · exact Or.inl h
      · exact Or.inr (Or.inl h)
      · exact Or.inr (Or.inr h)
    · rintro (h | h | h)
      · exact Or.inl (Or.inl h)
      · exact Or.inl (Or.inr h)
      · exact Or.inr h

/-- C2 witness: the all-`z` string of length 64 is classified as already
hashed by the length-only heuristic. -/
theorem c2_witness : looksPlainText (List.replicate 64 122) = false :=
  (c2_length_only_heuristic (List.replicate 64 122)).1.mpr (Or.inr (by decide))

/-- C2 counterexample: sixty-four `z` characters — length 64 but not hex.
The spec predicate says Legacy, yet the code leaves the value untouched as
if Canonical (the rewrite is the identity on it), because only length is
tested. -/
theorem c2_counterexample :
    isCanonicalSpec (List.replicate 64 122) = false ∧
    looksPlainText (List.replicate 64 122) = false ∧
    repairPassword (List.replicate 64 122) = List.replicate 64 122 := by decide

/-- C5 (confirmed): a secret always verifies against its own encoding under
the verification of src/test_login_flow.py (the hashed comparison fires),
and the encoding has fixed length 64 over the lowercase hex alphabet; it is
a Lean function, hence deterministic. -/
theorem c5_verify_encode_roundtrip (s : PyStr) :
    accepts (hash_password s) s = true ∧
    (hash_password s).length = 64 ∧
    (hash_password s).all isHexCp = true :=
  ⟨accepts_hash_self s, hash_password_length s, hash_password_all_hex s⟩

/-- C10 (confirmed): the four textually identical `hash_password` copies in
src/fix_all_credentials.py, src/fix_password_hashing.py,
src/create_firebase_schema.py and src/fix_varun_login.py denote the same
function — the SHA-256 hexdigest of the UTF-8 encoded secret — and a
credential written canonical by one script is accepted by the verification
logic of another for the same secret. -/
theorem c10_encode_copies_agree (s : PyStr) :
    hashPasswordFixAll s = hash_password s ∧
    hashPasswordFixHashing s = hash_password s ∧
    hashPasswordCreateSchema s = hash_password s ∧
    hashPasswordFixVarun s = hash_password s ∧
    accepts (hashPasswordCreateSchema s) s = true :=
  ⟨rfl, rfl, rfl, rfl, accepts_hash_self s⟩

/-- C3 (corrected): it holds for the migration of
src/fix_password_hashing.py — any number of runs leaves every restaurant
document with a spec-canonical admin credential, and every user document
with a spec-canonical pin, byte-identical — but not for
src/fix_all_credentials.py, which unconditionally resets credentials (see
the counterexample). -/
theorem c3_canonical_stable_under_fph (s : FPHStore) (n : Nat) :
    (∀ rid r, (rid, r) ∈ s.restaurants →
      isCanonicalSpec (r.adminPassword.getD []) = true →
      (rid, r) ∈ (fphMain^[n] s).restaurants) ∧
    (∀ tid us uid u, (tid, us) ∈ s.tenantUsers → (uid, u) ∈ us →
      isCanonicalSpec (u.pin.getD []) = true →
      ∃ us2, (tid, us2) ∈ (fphMain^[n] s).tenantUsers ∧ (uid, u) ∈ us2) := by
  induction n generalizing s with
  | zero =>
    exact ⟨fun rid r h _ => h, fun tid us uid u h hu _ => ⟨us, h, hu⟩⟩
  | succ n ih =>
    constructor
    · intro rid r hm hc
      rw [Function.iterate_succ_apply]
      exact (ih (fphMain s)).1 rid r (fphMain_restaurants_mem s rid r hm hc) hc
    · intro tid us uid u hm hu hc
      rw [Function.iterate_succ_apply]
      obtain ⟨us2, hm2, hprop⟩ := fphMain_users_mem s tid us hm
      exact (ih (fphMain s)).2 tid us2 uid u hm2 (hprop uid u hu hc) hc

/-- C3 witness: a store whose restaurant credential is already the digest
of `admin123` is unchanged by two runs of the password-hashing fix. -/
theorem c3_witness :
    (pyStr "r1", fphRestW) ∈ (fphMain^[2] fphStoreW).restaurants :=
  (c3_canonical_stable_under_fph fphStoreW 2).1 (pyStr "r1") fphRestW
    (by decide) (by decide)

/-- C3 counterexample: src/fix_all_credentials.py is also one of the cited
repair scripts, and it reverts a Canonical admin credential — the stored
digest of `admin123` — to the plain text `admin123`, and a Canonical user
pin to plain `1234`. -/
theorem c3_counterexample :
    isCanonicalSpec (hash_password (pyStr "admin123")) = true ∧
    (facMain facStoreW).restaurants =
      [(pyStr "r1",
        { name := some (pyStr "Demo"), email := some (pyStr "demo@restaurant.com"),
          adminPassword := some (pyStr "admin123"),
          adminUserId := some (pyStr "admin") })] ∧
    pyStr "admin123" ≠ hash_password (pyStr "admin123") ∧
    (facMain facStoreW).tenantUsers =
      [(pyStr "r1",
        [(pyStr "admin",
          { id := some (pyStr "admin"), pin := some (pyStr "1234") })])] ∧
    pyStr "1234" ≠ hash_password (pyStr "1234") := by decide

/-- C4 (corrected): whenever at least one restaurant matches the email,
`search_restaurant_by_email` of src/verify_restaurant_sync.py returns the
first match of a limit-1 query; it has no ambiguity outcome and never
reports duplicates. -/
theorem c4_first_match (db : VRSDb) (e : PyStr) (d : PyStr × VRSRest)
    (rest : List (PyStr × VRSRest))
    (h : db.restaurants.filter (fun p => p.2.email == some (lowerPy e)) = d :: rest) :
    search_restaurant_by_email db e = some d := by
  unfold search_restaurant_by_email vrsQuery
  rw [h]
  rfl

/-- C4 witness: on the duplicated email database, the first of the two
matching documents is returned. -/
theorem c4_witness :
    search_restaurant_by_email vrsDupDb (pyStr "dup@x.com")
      = some (pyStr "a1", vrsDup1) :=
  c4_first_match vrsDupDb (pyStr "dup@x.com") (pyStr "a1", vrsDup1)
    [(pyStr "a2", vrsDup2)] (by decide)

/-- C4 counterexample: two restaurants share `dup@x.com`.  The resolution
required by the claim is `Rejected(AmbiguousRestaurant)`, but the code
silently returns the first duplicate and continues. -/
theorem c4_counterexample :
    resolveRestaurantSpec vrsDupDb (pyStr "dup@x.com") = ResolveOutcome.ambiguous ∧
    search_restaurant_by_email vrsDupDb (pyStr "dup@x.com")
      = some (pyStr "a1", vrsDup1) := by decide

/-- C8 (corrected): when restaurant and user are found,
src/test_login_flow.py always performs the PIN verification and reports the
`is_active` flag separately afterwards; the PIN result is computed
independently of the flag, so an inactive restaurant does not preempt or
override secret verification. -/
theorem c8_pin_check_ignores_active (rid e uid pw pinIn storedPin : PyStr)
    (nm au : Option PyStr) (a : Option Bool) (un rl : Option PyStr) :
    testCredential ⟨e, uid, pw, pinIn⟩
      ⟨[(rid, ⟨nm, some e, au, a⟩)], [(rid, [(uid, ⟨un, rl, some storedPin⟩)])]⟩
      = FlowOutcome.checked (verifyPin storedPin pinIn) (a.getD true) := by
  simp [testCredential, testCredentialM, queryRestaurantsByEmail, getFlowUser,
    List.lookup]

/-- C8 counterexample: an inactive restaurant with a correct secret.  The
claim requires `Rejected(RestaurantInactive)`, but the flow reports a
successful hashed PIN match alongside the inactive flag — the attempt is
not rejected before (or instead of) secret verification. -/
theorem c8_counterexample :
    flowInactiveRest.is_active = some false ∧
    testCredential c8Cred flowInactiveStore
      = FlowOutcome.checked PinCheck.hashedMatch false := by decide

/-- C9 (confirmed): the login-verification scripts never write to the
store: both credential-test loops return the store exactly as given, for
every store and every credential list, and in particular on failed
attempts. -/
theorem c9_verification_writes_nothing :
    (∀ (cs : List Cred) (s : FlowStore), (testLoginFlowLoop cs s).2 = s) ∧
    (∀ (s : FlowStore), (testLoginFlowMain s).2 = s) ∧
    (∀ (cs : List Cred) (s : TLCStore), (tlcLoop cs s).2 = s) ∧
    (∀ (s : TLCStore), (tlcMain s).2 = s) :=
  ⟨testLoginFlowLoop_snd, fun s => testLoginFlowLoop_snd flowTestCreds s,
   tlcLoop_snd, fun s => tlcLoop_snd tlcTestCreds s⟩

/-- C6 (corrected): in src/fix_restaurant_credentials.py an exception while
repairing one restaurant is not caught per restaurant: it propagates out of
the loop, skipping every remaining restaurant, and the only handler wraps
the whole `main()`, turning any failure into exit code 1 with no
per-restaurant Failed record. -/
theorem c6_exception_aborts_batch :
    (∀ (p : PyStr × FRCRest) (ps : List (PyStr × FRCRest)) (s s1 : FRCStore)
        (e : PyStr),
      processRestaurant p s = (Except.error e, s1) →
      frcProcessAll (p :: ps) s = (Except.error e, s1)) ∧
    (∀ (s s1 : FRCStore) (e : PyStr),
      frcMain s = (Except.error e, s1) → frcScript s = (1, s1)) := by
  constructor
  · intro p ps s s1 e h
    unfold frcProcessAll
    rw [h]
  · intro s s1 e h
    unfold frcScript
    rw [h]

/-- C6 witness: with the first tenant-root write failing, the two-restaurant
batch stops at the first restaurant. -/
theorem c6_witness :
    frcProcessAll [(pyStr "r1", frcRest1), (pyStr "r2", frcRest2)] c6Store
      = (Except.error (frcTenantPath (pyStr "r1")), c6Store) :=
  c6_exception_aborts_batch.1 (pyStr "r1", frcRest1) [(pyStr "r2", frcRest2)]
    c6Store c6Store (frcTenantPath (pyStr "r1")) (by decide)

/-- C6 counterexample: a store exception on the first restaurant makes the
script exit 1, and the second restaurant — which would repair fine on its
own — is left unprocessed: its tenant root is never created.  The claim
promised isolation and continuation. -/
theorem c6_counterexample :
    (frcScript c6Store).1 = 1 ∧
    (frcScript c6Store).2.tenants.contains (pyStr "r2") = false ∧
    isOkResult (processRestaurant (pyStr "r2", frcRest2) c6Store2) = true ∧
    (processRestaurant (pyStr "r2", frcRest2) c6Store2).2.tenants.contains
      (pyStr "r2") = true := by decide

/-- C7 (corrected): when the tenant exists and the admin user is missing
(and the write succeeds), src/fix_restaurant_credentials.py creates exactly
one user with that id, role `admin` and `adminPanelAccess = true` — but its
pin is `encode` applied to whatever admin credential is stored at that
moment, not the now-canonical credential: the script hashes
unconditionally, even when the stored value is already a canonical digest
(see the counterexample for the resulting double encoding). -/
theorem c7_admin_user_creation (rid : PyStr) (data : FRCRest) (s : FRCStore)
    (hT : s.tenants.contains rid = true)
    (hU : ((s.tenantUsers.lookup rid).getD []).lookup (frcAdminUserId data) = none)
    (hF : s.failWrites.contains (frcUserPath rid (frcAdminUserId data)) = false) :
    isOkResult (processRestaurant (rid, data) s) = true ∧
    (((processRestaurant (rid, data) s).2.tenantUsers.lookup rid).getD []).lookup
        (frcAdminUserId data)
      = some (mkAdminUser (frcAdminUserId data) (frcAdminPassword data)) ∧
    (((processRestaurant (rid, data) s).2.tenantUsers.lookup rid).getD []).countP
        (fun q => frcAdminUserId data == q.1) = 1 ∧
    (mkAdminUser (frcAdminUserId data) (frcAdminPassword data)).role
      = pyStr "admin" ∧
    (mkAdminUser (frcAdminUserId data) (frcAdminPassword data)).adminPanelAccess
      = true ∧
    (mkAdminUser (frcAdminUserId data) (frcAdminPassword data)).pin
      = hash_password (frcAdminPassword data) := by
  have hstep : processRestaurant (rid, data) s =
      (Except.ok (),
       { s with tenantUsers := setAssoc s.tenantUsers rid
                                 (setAssoc ((s.tenantUsers.lookup rid).getD [])
                                   (frcAdminUserId data)
                                   (mkAdminUser (frcAdminUserId data)
                                     (frcAdminPassword data))) }) := by
    have hT2 : rid ∈ s.tenants := by simpa using hT
    have hF2 : frcUserPath rid (frcAdminUserId data) ∉ s.failWrites := by
      simpa using hF
    simp [processRestaurant, hT2, hU, frcSetUser, hF2]
  refine ⟨?_, ?_, ?_, rfl, rfl, rfl⟩
  · rw [hstep]
    rfl
  · rw [hstep]
    simp only [lookup_setAssoc_self, Option.getD_some]
  · rw [hstep]
    simp only [lookup_setAssoc_self, Option.getD_some]
    exact countP_setAssoc_one _ _ _ hU

/-- C7 witness: the creation applied to a concrete store whose tenant root
exists and whose admin user is absent. -/
theorem c7_witness :
    (((processRestaurant (pyStr "r1", c7Rest) c7Store).2.tenantUsers.lookup
        (pyStr "r1")).getD []).lookup (frcAdminUserId c7Rest)
      = some (mkAdminUser (frcAdminUserId c7Rest) (frcAdminPassword c7Rest)) :=
  (c7_admin_user_creation (pyStr "r1") c7Rest c7Store (by decide) (by decide)
    (by decide)).2.1

/-- C7 counterexample: the stored admin credential is already the canonical
digest of `admin123`, yet the created user receives
`encode(encode(admin123))` as its pin — encode applied to an
already-canonical digest, and different from the canonical admin
credential. -/
theorem c7_counterexample :
    isCanonicalSpec (frcAdminPassword c7Rest) = true ∧
    (((processRestaurant (pyStr "r1", c7Rest) c7Store).2.tenantUsers.lookup
        (pyStr "r1")).getD []).lookup (pyStr "admin")
      = some (mkAdminUser (pyStr "admin")
          (hash_password (pyStr "admin123"))) ∧
    (mkAdminUser (pyStr "admin") (hash_password (pyStr "admin123"))).pin
      = hash_password (hash_password (pyStr "admin123")) ∧
    hash_password (hash_password (pyStr "admin123"))
      ≠ hash_password (pyStr "admin123") := by decide

end AIPos
